import Mathlib

/-!
Shallow embedding of `src/index.ts` of the mcp-server-mamp-mysql adapter:
an MCP server exposing one read-only MySQL query tool and per-table schema
resources over a mysql2 connection pool.

The embedding models each handler as a pure function.  Database behaviour
(success or failure of each statement sent to the server, catalog contents)
is supplied by explicit oracles, so a single run of a handler is a total
function of its inputs and the oracle.
-/

namespace MampMysql

/-- JSON-ish values appearing in tool arguments and query result rows. -/
inductive JValue where
  | str (s : String)
  | num (n : Int)
  | bool (b : Bool)
  | null
deriving DecidableEq

/-- A result row: an ordered mapping from column name to value, as returned
by mysql2 for a SELECT. -/
abbrev Row := List (String × JValue)

/-! ## JavaScript string primitives used by the handlers

Each is written by structural recursion over the character list so that
concrete runs reduce inside the kernel. -/

/-- The whitespace characters JavaScript `trim()` removes (restricted to
the ASCII ones that can occur in SQL text and URIs). -/
def jsWhitespace (c : Char) : Bool :=
  c = ' ' || c = '\t' || c = '\n' || c = '\r' || c = '\x0b' || c = '\x0c'

/-- JavaScript `s.trim()`. -/
def jsTrim (s : String) : String :=
  String.mk (((s.data.dropWhile jsWhitespace).reverse.dropWhile jsWhitespace).reverse)

/-- Lower-casing of one character, as `toLowerCase()` acts on ASCII. -/
def lowerChar (c : Char) : Char :=
  if 'A' ≤ c ∧ c ≤ 'Z' then Char.ofNat (c.toNat + 32) else c

/-- JavaScript `s.toLowerCase()` (ASCII fragment). -/
def jsToLower (s : String) : String :=
  String.mk (s.data.map lowerChar)

/-- JavaScript `s.startsWith(patt)`. -/
def jsStartsWith (s patt : String) : Bool :=
  s.data.take patt.data.length = patt.data

/-- Splitting a character list at every occurrence of `sep`, keeping empty
pieces, with `acc` the (reversed) piece being assembled. -/
def splitCharsAux (sep : Char) (acc : List Char) : List Char → List (List Char)
  | [] => [acc.reverse]
  | c :: rest =>
    if c = sep then acc.reverse :: splitCharsAux sep [] rest
    else splitCharsAux sep (c :: acc) rest

/-- JavaScript `s.split(sep)` for a one-character separator. -/
def jsSplit (s : String) (sep : Char) : List String :=
  (splitCharsAux sep [] s.data).map String.mk

/-- JSON string escaping for the characters JSON.stringify always escapes
(backslash, quote, and the common control characters). -/
def escapeChar (c : Char) : String :=
  if c = '"' then "\\\""
  else if c = '\\' then "\\\\"
  else if c = '\n' then "\\n"
  else if c = '\r' then "\\r"
  else if c = '\t' then "\\t"
  else String.singleton c

/-- Escape a string for inclusion in a JSON document. -/
def jsonEscape (s : String) : String :=
  String.join (s.data.map escapeChar)

/-- Serialization of a single JSON value, as JSON.stringify renders scalars. -/
def jValueToJson : JValue → String
  | JValue.str s => "\"" ++ jsonEscape s ++ "\""
  | JValue.num n => toString n
  | JValue.bool b => if b then "true" else "false"
  | JValue.null => "null"

/-- One field of a row object at the indentation JSON.stringify(rows, null, 2)
uses for fields of array elements. -/
def rowFieldJson (f : String × JValue) : String :=
  "    \"" ++ jsonEscape f.1 ++ "\": " ++ jValueToJson f.2

/-- One row object, indented as an element of the top-level array. -/
def rowJson (r : Row) : String :=
  match r with
  | [] => "  \x7b\x7d"
  | fs => "  \x7b\n" ++ String.intercalate ",\n" (fs.map rowFieldJson) ++ "\n  \x7d"

/-- JSON.stringify(rows, null, 2) for a result-row array. -/
def rowsJson : List Row → String
  | [] => "[]"
  | rs => "[\n" ++ String.intercalate ",\n" (rs.map rowJson) ++ "\n]"

/-! ## The read-only query path (`executeReadOnlyQuery`, src/index.ts lines 113-138) -/

/-- MySQL session transaction access mode. -/
inductive SessionMode where
  | readWrite
  | readOnly
deriving DecidableEq

/-- Observable state of the pooled connection used by one
`executeReadOnlyQuery` call: its session mode, whether a transaction is
open, how many times `rollback()` was invoked on it during the call, and
whether it has been released back to the pool. -/
structure Conn where
  mode : SessionMode
  inTransaction : Bool
  rollbackCount : Nat
  released : Bool
deriving DecidableEq

deriving instance DecidableEq for Except

/-- Behaviour of the database server during one `executeReadOnlyQuery`
call: whether each administrative statement succeeds, and the outcome of
the user query itself. -/
structure Oracle where
  setReadOnlyOk : Bool
  beginOk : Bool
  queryResult : Except String (List Row)
  rollbackOk : Bool
  setReadWriteOk : Bool
deriving DecidableEq

/-- One `connection.rollback()` call: it is always counted as performed;
only a successful rollback closes the open transaction. -/
def rollbackCall (c : Conn) (ok : Bool) : Conn :=
  if ok then { c with rollbackCount := c.rollbackCount + 1, inTransaction := false }
  else { c with rollbackCount := c.rollbackCount + 1 }

/-- The catch block of `executeReadOnlyQuery` (lines 132-134) followed by the
finally block (line 136): roll back, re-raise the pending error (or the
rollback error if the rollback itself fails, as in JavaScript an exception
thrown inside a catch block replaces the original one), and release the
connection. -/
def onError (c : Conn) (e : String) (o : Oracle) : Except String (List Row) × Conn :=
  let c2 := rollbackCall c o.rollbackOk
  if o.rollbackOk then (Except.error e, { c2 with released := true })
  else (Except.error "rollback failed", { c2 with released := true })

/-- `executeReadOnlyQuery` (lines 113-138): set the session read-only, begin
a transaction, execute the user query, roll back, restore the session to
read-write, with the catch/finally behaviour of `onError`.  `m` is the
session mode of the connection as handed out by the pool. -/
def executeReadOnlyQuery (m : SessionMode) (o : Oracle) :
    Except String (List Row) × Conn :=
  let c0 : Conn := { mode := m, inTransaction := false, rollbackCount := 0, released := false }
  if !o.setReadOnlyOk then onError c0 "SET SESSION TRANSACTION READ ONLY failed" o
  else
    let c1 := { c0 with mode := SessionMode.readOnly }
    if !o.beginOk then onError c1 "begin transaction failed" o
    else
      let c2 := { c1 with inTransaction := true }
      match o.queryResult with
      | Except.error e => onError c2 e o
      | Except.ok rows =>
        let c3 := rollbackCall c2 o.rollbackOk
        if !o.rollbackOk then onError c3 "rollback failed" o
        else if !o.setReadWriteOk then onError c3 "SET SESSION TRANSACTION READ WRITE failed" o
        else (Except.ok rows, { c3 with mode := SessionMode.readWrite, released := true })

/-! ## The tool handler (`setupToolHandlers`, src/index.ts lines 212-275) -/

/-- MCP protocol error codes used by the handler. -/
inductive ErrorCode where
  | MethodNotFound
  | InvalidParams
  | InvalidRequest
deriving DecidableEq

/-- A protocol-level fault (`McpError`): thrown by the handler, carried to
the client as a JSON-RPC error rather than a tool result. -/
structure McpError where
  code : ErrorCode
  message : String
deriving DecidableEq

/-- One content block of a tool response. -/
structure ToolContent where
  type : String
  text : String
deriving DecidableEq

/-- A normal tool response: content blocks plus the error flag (absent in
the success object of the source, which is modelled as `false`). -/
structure ToolResponse where
  content : List ToolContent
  isError : Bool
deriving DecidableEq

/-- First-match lookup of a key in a JSON object given as an association
list, as JavaScript property access `args.sql` on the arguments object. -/
def lookupArg (key : String) : List (String × JValue) → Option JValue
  | [] => none
  | (k, v) :: rest => if k = key then some v else lookupArg key rest

/-- The arguments check of the handler (lines 240-243): `args.sql` is
available exactly when the arguments object is present and its `sql`
property is a string (`typeof args.sql === "string"`). -/
def argSql (arguments : Option (List (String × JValue))) : Option String :=
  match arguments with
  | none => none
  | some kvs =>
    match lookupArg "sql" kvs with
    | some (JValue.str s) => some s
    | _ => none

/-- The CallTool request handler (lines 232-274).  `exec` is the database
side of `executeReadOnlyQuery` for the submitted SQL text.  The second
component of the result records every SQL string actually handed to the
database, so `[]` means no query was executed. -/
def callTool (exec : String → Except String (List Row))
    (name : String) (arguments : Option (List (String × JValue))) :
    Except McpError ToolResponse × List String :=
  if name ≠ "mysql_query" then
    (Except.error { code := ErrorCode.MethodNotFound, message := "Unknown tool: " ++ name }, [])
  else
    match argSql arguments with
    | none => (Except.error { code := ErrorCode.InvalidParams, message := "Invalid SQL query" }, [])
    | some sql =>
      if !(jsStartsWith (jsToLower (jsTrim sql)) "select") then
        (Except.error { code := ErrorCode.InvalidRequest,
                        message := "Only SELECT queries are allowed" }, [])
      else
        match exec sql with
        | Except.ok rows =>
          (Except.ok { content := [{ type := "text", text := rowsJson rows }],
                       isError := false }, [sql])
        | Except.error e =>
          (Except.ok { content := [{ type := "text", text := "MySQL query error: " ++ e }],
                       isError := true }, [sql])

/-! ## Environment validation and pool configuration (lines 24-47 and 53-67) -/

/-- The process environment slice read at lines 25-33.  Each variable is
absent (`none`) or present with a string value. -/
structure Env where
  MYSQL_HOST : Option String
  MYSQL_PORT : Option String
  MYSQL_USER : Option String
  MYSQL_PASS : Option String
  MYSQL_DB : Option String
  MYSQL_SOCKET : Option String
  MYSQL_POOL_LIMIT : Option String
deriving DecidableEq

/-- JavaScript truthiness of an optional environment string: `undefined`
and the empty string are falsy, every other string is truthy. -/
def truthy : Option String → Bool
  | none => false
  | some s => !(s = "")

/-- JavaScript `parseInt(s, 10)`: skip leading whitespace, optional sign,
then the longest digit run; `none` models NaN (no digits). -/
def parseIntJs (s : String) : Option Int :=
  let cs := (jsTrim s).data
  let signed : Bool × List Char :=
    match cs with
    | '-' :: rest => (true, rest)
    | '+' :: rest => (false, rest)
    | _ => (false, cs)
  let ds := signed.2.takeWhile Char.isDigit
  if ds.isEmpty then none
  else
    let n : Nat := ds.foldl (fun acc c => acc * 10 + (c.toNat - 48)) 0
    some (if signed.1 then -(n : Int) else (n : Int))

/-- The module-level environment validation (lines 36-47): each `throw`
becomes an `Except.error` with the thrown message. -/
def validateEnv (e : Env) : Except String Unit :=
  if !truthy e.MYSQL_USER then
    Except.error "MYSQL_USER environment variable is required"
  else if !truthy e.MYSQL_PASS then
    Except.error "MYSQL_PASS environment variable is required"
  else if !truthy e.MYSQL_DB then
    Except.error "MYSQL_DB environment variable is required"
  else if !truthy e.MYSQL_SOCKET && (!truthy e.MYSQL_HOST || !truthy e.MYSQL_PORT) then
    Except.error "Either MYSQL_SOCKET or both MYSQL_HOST and MYSQL_PORT environment variables are required"
  else Except.ok ()

/-- The mysql2 pool options object assembled by the constructor
(lines 54-67): fields not assigned stay `none`. -/
structure PoolConfig where
  user : Option String
  password : Option String
  database : Option String
  connectionLimit : Option Int
  socketPath : Option String
  host : Option String
  port : Option Int
deriving DecidableEq

/-- The constructor's config assembly (lines 54-67): base credentials and
pool limit, then either the socket path (when `MYSQL_SOCKET` is truthy) or
host and parsed port. -/
def buildConfig (e : Env) : PoolConfig :=
  let base : PoolConfig :=
    { user := e.MYSQL_USER
      password := e.MYSQL_PASS
      database := e.MYSQL_DB
      connectionLimit := parseIntJs (e.MYSQL_POOL_LIMIT.getD "10")
      socketPath := none
      host := none
      port := none }
  if truthy e.MYSQL_SOCKET then { base with socketPath := e.MYSQL_SOCKET }
  else
    { base with
        host := e.MYSQL_HOST
        port := match e.MYSQL_PORT with
                | some s => parseIntJs s
                | none => none }

/-- Process startup as far as pool creation: the module-level validation
runs first (lines 36-47) and any failure prevents the constructor from
ever assembling a pool configuration (line 69). -/
def startup (e : Env) : Except String PoolConfig :=
  match validateEnv e with
  | Except.error msg => Except.error msg
  | Except.ok _ => Except.ok (buildConfig e)

/-! ## Pool shutdown (`shutdown`, lines 98-101) -/

/-- A pooled connection, instrumented with the number of times it has been
closed. -/
structure PooledConn where
  id : Nat
  closeCount : Nat
deriving DecidableEq

/-- The connection pool: live connections plus the connections already
closed, kept for observation, and the closed flag. -/
structure Pool where
  live : List PooledConn
  closedConns : List PooledConn
  closed : Bool
deriving DecidableEq

/-- Closing one pooled connection. -/
def connClose (c : PooledConn) : PooledConn :=
  { c with closeCount := c.closeCount + 1 }

/-- Modelled from the spec: `pool.end()` of the mysql2 driver, which is not
part of this repository.  It closes every connection currently held by the
pool, removes them from it, and marks the pool closed; a later call finds
no connections left to close. -/
def poolEnd (p : Pool) : Pool :=
  { live := []
    closedConns := p.closedConns ++ p.live.map connClose
    closed := true }

/-- The `shutdown` method (lines 98-101): log the signal name, then end the
pool.  The signal only affects the log line, not the pool. -/
def shutdown (_sig : String) (p : Pool) : Pool :=
  poolEnd p

/-! ## Resource reading (`setupResourceHandlers`, lines 140-210) -/

/-- The parts of a WHATWG `URL` the handler uses. -/
structure ParsedUrl where
  scheme : String
  authority : String
  pathname : String
deriving DecidableEq

/-- Splitting a character list at the first occurrence of the substring
"://" into the scheme part and the remainder. -/
def splitSchemeAux (acc : List Char) : List Char → Option (List Char × List Char)
  | ':' :: '/' :: '/' :: rest => some (acc.reverse, rest)
  | c :: rest => splitSchemeAux (c :: acc) rest
  | [] => none

/-- Rejoining path pieces with slashes. -/
def joinSlash : List (List Char) → List Char
  | [] => []
  | [x] => x
  | x :: xs => x ++ '/' :: joinSlash xs

/-- `new URL(uri)` restricted to `scheme://authority/path` shapes: `none`
models the TypeError thrown on an unparsable URI.  The pathname keeps its
leading slash, as in the WHATWG parser. -/
def parseUrl (s : String) : Option ParsedUrl :=
  match splitSchemeAux [] s.data with
  | none => none
  | some (sch, rest) =>
    if sch.isEmpty then none
    else
      match splitCharsAux '/' [] rest with
      | [] => none
      | auth :: pathParts =>
        some { scheme := String.mk sch
               authority := String.mk auth
               pathname :=
                 if pathParts.isEmpty then ""
                 else String.mk ('/' :: joinSlash pathParts) }

/-- A row of the catalog column query (`information_schema.columns`). -/
structure ColumnRow where
  COLUMN_NAME : String
  DATA_TYPE : String
deriving DecidableEq

/-- A row of `information_schema.columns` as stored by the server: the
schema (database) and table it belongs to, plus the column descriptor. -/
structure CatalogRow where
  table_schema : String
  table_name : String
  column : ColumnRow
deriving DecidableEq

/-- The database catalog, as the oracle for the trusted catalog query. -/
abbrev Catalog := List CatalogRow

/-- The parameterized catalog query of lines 191-194: SELECT COLUMN_NAME,
DATA_TYPE FROM information_schema.columns WHERE table_schema = ? AND
table_name = ?. -/
def catalogColumns (cat : Catalog) (db tbl : String) : List ColumnRow :=
  (cat.filter (fun r => r.table_schema = db && r.table_name = tbl)).map
    (fun r => r.column)

/-- One column object of JSON.stringify(results, null, 2). -/
def columnRowJson (r : ColumnRow) : String :=
  "  \x7b\n    \"COLUMN_NAME\": \"" ++ jsonEscape r.COLUMN_NAME ++
  "\",\n    \"DATA_TYPE\": \"" ++ jsonEscape r.DATA_TYPE ++ "\"\n  \x7d"

/-- JSON.stringify(results, null, 2) for the catalog query result. -/
def serializeColumns : List ColumnRow → String
  | [] => "[]"
  | rs => "[\n" ++ String.intercalate ",\n" (rs.map columnRowJson) ++ "\n]"

/-- One content item of a ReadResource response. -/
structure ResourceContent where
  uri : String
  mimeType : String
  text : String
deriving DecidableEq

/-- A ReadResource response. -/
structure ReadResourceResult where
  contents : List ResourceContent
deriving DecidableEq

/-- The ReadResource handler (lines 180-209): parse the URI, pop the last
path segment (must be the literal "schema") and the one before it (the
table name), run the catalog query filtered by the configured database
`db` (the `MYSQL_DB` environment value) and the table name, and answer
with the JSON text.  A `none` table name reaches the driver as an
undefined bind parameter, which mysql2 rejects. -/
def readResource (db : String) (cat : Catalog) (uri : String) :
    Except String ReadResourceResult :=
  match parseUrl uri with
  | none => Except.error "Invalid URL"
  | some u =>
    let comps := jsSplit u.pathname '/'
    let schema := comps.getLast?
    let tableName := comps.dropLast.getLast?
    if schema ≠ some "schema" then Except.error "Invalid resource URI"
    else
      match tableName with
      | none => Except.error "Bind parameters must not contain undefined"
      | some t =>
        Except.ok
          { contents := [{ uri := uri
                           mimeType := "application/json"
                           text := serializeColumns (catalogColumns cat db t) }] }

/-- The outcome of a ReadResource call with the echoed request URI
stripped: the error, or the text payloads of the content blocks. -/
def responseText : Except String ReadResourceResult → Except String (List String)
  | Except.error e => Except.error e
  | Except.ok r => Except.ok (r.contents.map (fun c => c.text))

/-! ## Claims -/

/-- Claim C1: for every SQL string that passes the tool-call gates, the
read-only execution path performs rollback exactly once per call and
releases the connection back to the pool, regardless of whether the query
execution succeeds or fails.  The hypotheses fix the administrative
statements (set read-only, begin, rollback, restore read-write) as
succeeding, so that success or failure of the user query itself is the
only varying outcome, as the claim quantifies. -/
theorem C1_rollback_once_and_release (m : SessionMode) (o : Oracle)
    (h1 : o.setReadOnlyOk = true) (h2 : o.beginOk = true)
    (h3 : o.rollbackOk = true) (h4 : o.setReadWriteOk = true) :
    (executeReadOnlyQuery m o).2.rollbackCount = 1 ∧
    (executeReadOnlyQuery m o).2.released = true := by
  cases hq : o.queryResult with
  | error e => simp [executeReadOnlyQuery, onError, rollbackCall, h1, h2, h3, h4, hq]
  | ok rows => simp [executeReadOnlyQuery, onError, rollbackCall, h1, h2, h3, h4, hq]

/-- Witness for C1 at a failing user query. -/
theorem C1_rollback_once_and_release_witness :
    (executeReadOnlyQuery SessionMode.readWrite
      { setReadOnlyOk := true, beginOk := true,
        queryResult := Except.error "Table does not exist", rollbackOk := true,
        setReadWriteOk := true }).2.rollbackCount = 1 ∧
    (executeReadOnlyQuery SessionMode.readWrite
      { setReadOnlyOk := true, beginOk := true,
        queryResult := Except.error "Table does not exist", rollbackOk := true,
        setReadWriteOk := true }).2.released = true :=
  C1_rollback_once_and_release SessionMode.readWrite _ rfl rfl rfl rfl

/-- Counterexample to claim C2 as stated: when the user query fails (here
after read-only mode was set and the transaction begun), the catch path
rolls back and releases the connection without ever restoring the session
to read-write, so the connection re-enters the pool still in read-only
mode. -/
theorem C2_counterexample :
    (executeReadOnlyQuery SessionMode.readWrite
      { setReadOnlyOk := true, beginOk := true,
        queryResult := Except.error "Table does not exist", rollbackOk := true,
        setReadWriteOk := true }).2.mode = SessionMode.readOnly ∧
    (executeReadOnlyQuery SessionMode.readWrite
      { setReadOnlyOk := true, beginOk := true,
        queryResult := Except.error "Table does not exist", rollbackOk := true,
        setReadWriteOk := true }).2.released = true := by
  decide

/-- Claim C2 amended: only the successful exit path restores the session to
read-write before the connection is returned to the pool; on the failing
path the restore statement is never reached, and the connection is
released still in read-only mode. -/
theorem C2_readwrite_restore_success_only (m : SessionMode) (o : Oracle) :
    (o.setReadOnlyOk = true → o.beginOk = true → o.rollbackOk = true →
     o.setReadWriteOk = true → ∀ rows, o.queryResult = Except.ok rows →
       (executeReadOnlyQuery m o).2.mode = SessionMode.readWrite ∧
       (executeReadOnlyQuery m o).2.released = true) ∧
    (o.setReadOnlyOk = true → o.beginOk = true →
     ∀ e, o.queryResult = Except.error e →
       (executeReadOnlyQuery m o).2.mode = SessionMode.readOnly ∧
       (executeReadOnlyQuery m o).2.released = true) := by
  constructor
  · intro h1 h2 h3 h4 rows hq
    simp [executeReadOnlyQuery, onError, rollbackCall, h1, h2, h3, h4, hq]
  · intro h1 h2 e hq
    cases h3 : o.rollbackOk <;>
      simp [executeReadOnlyQuery, onError, rollbackCall, h1, h2, h3, hq]

/-- Witness for the amended C2, on a succeeding and on a failing query. -/
theorem C2_readwrite_restore_success_only_witness :
    ((executeReadOnlyQuery SessionMode.readWrite
        { setReadOnlyOk := true, beginOk := true,
          queryResult := Except.ok [[("x", JValue.num 1)]], rollbackOk := true,
          setReadWriteOk := true }).2.mode = SessionMode.readWrite ∧
     (executeReadOnlyQuery SessionMode.readWrite
        { setReadOnlyOk := true, beginOk := true,
          queryResult := Except.ok [[("x", JValue.num 1)]], rollbackOk := true,
          setReadWriteOk := true }).2.released = true) ∧
    ((executeReadOnlyQuery SessionMode.readWrite
        { setReadOnlyOk := true, beginOk := true,
          queryResult := Except.error "boom", rollbackOk := true,
          setReadWriteOk := true }).2.mode = SessionMode.readOnly ∧
     (executeReadOnlyQuery SessionMode.readWrite
        { setReadOnlyOk := true, beginOk := true,
          queryResult := Except.error "boom", rollbackOk := true,
          setReadWriteOk := true }).2.released = true) :=
  ⟨(C2_readwrite_restore_success_only SessionMode.readWrite _).1
      rfl rfl rfl rfl [[("x", JValue.num 1)]] rfl,
   (C2_readwrite_restore_success_only SessionMode.readWrite _).2
      rfl rfl "boom" rfl⟩

/-- Claim C3: for every SQL string that, after trimming whitespace and
lowercasing, does not start with "select", the CallTool handler answers
with a protocol-level InvalidRequest fault and hands no query to the
database. -/
theorem C3_non_select_rejected (exec : String → Except String (List Row))
    (args : Option (List (String × JValue))) (sql : String)
    (hsql : argSql args = some sql)
    (hgate : jsStartsWith (jsToLower (jsTrim sql)) "select" = false) :
    callTool exec "mysql_query" args =
      (Except.error { code := ErrorCode.InvalidRequest,
                      message := "Only SELECT queries are allowed" }, []) := by
  simp [callTool, hsql, hgate]

/-- Witness for C3 at a DELETE statement. -/
theorem C3_non_select_rejected_witness :
    argSql (some [("sql", JValue.str "DELETE FROM orders")]) =
        some "DELETE FROM orders" ∧
    callTool (fun _ => Except.ok []) "mysql_query"
        (some [("sql", JValue.str "DELETE FROM orders")]) =
      (Except.error { code := ErrorCode.InvalidRequest,
                      message := "Only SELECT queries are allowed" }, []) :=
  ⟨rfl, C3_non_select_rejected (fun _ => Except.ok []) _ "DELETE FROM orders" rfl rfl⟩

/-- Claim C4: when both gates pass and the query execution fails, the
handler returns a normal tool response (not a protocol fault) whose single
text content block carries the underlying error message and whose isError
flag is set. -/
theorem C4_query_error_flagged (exec : String → Except String (List Row))
    (args : Option (List (String × JValue))) (sql e : String)
    (hsql : argSql args = some sql)
    (hgate : jsStartsWith (jsToLower (jsTrim sql)) "select" = true)
    (hexec : exec sql = Except.error e) :
    callTool exec "mysql_query" args =
      (Except.ok { content := [{ type := "text",
                                 text := "MySQL query error: " ++ e }],
                   isError := true }, [sql]) := by
  simp [callTool, hsql, hgate, hexec]

/-- Witness for C4 at a SELECT on a nonexistent table. -/
theorem C4_query_error_flagged_witness :
    callTool (fun _ => Except.error "Table db.nonexistent_table does not exist")
        "mysql_query"
        (some [("sql", JValue.str "SELECT * FROM nonexistent_table")]) =
      (Except.ok { content := [{ type := "text",
                                 text := "MySQL query error: Table db.nonexistent_table does not exist" }],
                   isError := true }, ["SELECT * FROM nonexistent_table"]) :=
  C4_query_error_flagged _ _ "SELECT * FROM nonexistent_table"
    "Table db.nonexistent_table does not exist" rfl rfl rfl

/-- Claim C5: an unknown tool name fails with MethodNotFound before the
arguments are even looked at; with the right name, absent arguments or a
non-string sql field fail with InvalidParams. -/
theorem C5_dispatch_order (exec : String → Except String (List Row))
    (name : String) (args : Option (List (String × JValue))) :
    (name ≠ "mysql_query" →
       callTool exec name args =
         (Except.error { code := ErrorCode.MethodNotFound,
                         message := "Unknown tool: " ++ name }, [])) ∧
    (argSql args = none →
       callTool exec "mysql_query" args =
         (Except.error { code := ErrorCode.InvalidParams,
                         message := "Invalid SQL query" }, [])) := by
  constructor
  · intro h
    simp [callTool, h]
  · intro h
    simp [callTool, h]

/-- Witness for C5: a wrong tool name with malformed arguments still gets
MethodNotFound, and the right name with a non-string sql gets
InvalidParams. -/
theorem C5_dispatch_order_witness :
    callTool (fun _ => Except.ok []) "other_tool" none =
      (Except.error { code := ErrorCode.MethodNotFound,
                      message := "Unknown tool: other_tool" }, []) ∧
    callTool (fun _ => Except.ok []) "mysql_query"
        (some [("sql", JValue.num 5)]) =
      (Except.error { code := ErrorCode.InvalidParams,
                      message := "Invalid SQL query" }, []) :=
  ⟨(C5_dispatch_order (fun _ => Except.ok []) "other_tool" none).1 (by decide),
   (C5_dispatch_order (fun _ => Except.ok []) "mysql_query"
      (some [("sql", JValue.num 5)])).2 rfl⟩

/-- Claim C6: in the ReadResource handler, a URI whose last path segment is
not the literal "schema" fails with the invalid-URI error; otherwise the
second-to-last segment is the table name for the catalog column query, and
a table matching no catalog rows yields a successful response whose text is
the empty JSON array. -/
theorem C6_read_resource_schema_segment (db : String) (cat : Catalog)
    (uri : String) (u : ParsedUrl) (hu : parseUrl uri = some u) :
    ((jsSplit u.pathname '/').getLast? ≠ some "schema" →
       readResource db cat uri = Except.error "Invalid resource URI") ∧
    (∀ t, (jsSplit u.pathname '/').getLast? = some "schema" →
       ((jsSplit u.pathname '/').dropLast).getLast? = some t →
       catalogColumns cat db t = [] →
       readResource db cat uri =
         Except.ok { contents := [{ uri := uri,
                                    mimeType := "application/json",
                                    text := "[]" }] }) := by
  constructor
  · intro h
    simp [readResource, hu, h]
  · intro t h1 h2 h3
    simp [readResource, hu, h1, h2, h3, serializeColumns]

/-- Witness for C6: a URI ending in a segment other than "schema" is
rejected, and a schema URI for a table absent from the catalog succeeds
with the empty JSON array. -/
theorem C6_read_resource_schema_segment_witness :
    readResource "mydb" [] "mysql://mydb/orders/columns" =
      Except.error "Invalid resource URI" ∧
    readResource "mydb" [] "mysql://mydb/orders/schema" =
      Except.ok { contents := [{ uri := "mysql://mydb/orders/schema",
                                 mimeType := "application/json",
                                 text := "[]" }] } :=
  ⟨(C6_read_resource_schema_segment "mydb" [] "mysql://mydb/orders/columns"
      { scheme := "mysql", authority := "mydb", pathname := "/orders/columns" }
      rfl).1 (by decide),
   (C6_read_resource_schema_segment "mydb" [] "mysql://mydb/orders/schema"
      { scheme := "mysql", authority := "mydb", pathname := "/orders/schema" }
      rfl).2 "orders" rfl rfl rfl⟩

/-- Claim C7: an environment missing any of MYSQL_USER, MYSQL_PASS or
MYSQL_DB, or supplying neither MYSQL_SOCKET nor both MYSQL_HOST and
MYSQL_PORT, makes startup fail before any pool configuration is
assembled: `startup` stops at the module-level validation and returns the
thrown message, never reaching `buildConfig`. -/
theorem C7_missing_env_fails_startup (e : Env)
    (h : e.MYSQL_USER = none ∨ e.MYSQL_PASS = none ∨ e.MYSQL_DB = none ∨
         (e.MYSQL_SOCKET = none ∧ (e.MYSQL_HOST = none ∨ e.MYSQL_PORT = none))) :
    ∃ msg, startup e = Except.error msg := by
  have hval : ∃ m, validateEnv e = Except.error m := by
    unfold validateEnv
    by_cases h1 : truthy e.MYSQL_USER = true
    · by_cases h2 : truthy e.MYSQL_PASS = true
      · by_cases h3 : truthy e.MYSQL_DB = true
        · rcases h with h | h | h | ⟨hs, hhp⟩
          · rw [h] at h1; exact absurd h1 (by simp [truthy])
          · rw [h] at h2; exact absurd h2 (by simp [truthy])
          · rw [h] at h3; exact absurd h3 (by simp [truthy])
          · have hs' : truthy e.MYSQL_SOCKET = false := by simp [hs, truthy]
            rcases hhp with hh | hp
            · have hh' : truthy e.MYSQL_HOST = false := by simp [hh, truthy]
              simp [h1, h2, h3, hs', hh']
            · have hp' : truthy e.MYSQL_PORT = false := by simp [hp, truthy]
              simp [h1, h2, h3, hs', hp']
        · simp [h1, h2, h3]
      · simp [h1, h2]
    · simp [h1]
  obtain ⟨m, hm⟩ := hval
  exact ⟨m, by simp [startup, hm]⟩

/-- Witness for C7 at an environment with user and password but no
database name and no addressing information. -/
theorem C7_missing_env_fails_startup_witness :
    ∃ msg,
      startup { MYSQL_HOST := none, MYSQL_PORT := none, MYSQL_USER := some "u",
                MYSQL_PASS := some "p", MYSQL_DB := none, MYSQL_SOCKET := none,
                MYSQL_POOL_LIMIT := none } = Except.error msg :=
  C7_missing_env_fails_startup _ (Or.inr (Or.inr (Or.inl rfl)))

/-- Claim C8: shutdown is idempotent across the two signal paths: a second
invocation (from either signal) leaves the pool exactly as one invocation
does, and every connection that was live is closed exactly once. -/
theorem C8_shutdown_idempotent (p : Pool) (s1 s2 : String) :
    shutdown s2 (shutdown s1 p) = shutdown s1 p ∧
    (shutdown s2 (shutdown s1 p)).closedConns =
      p.closedConns ++ p.live.map connClose := by
  constructor
  · simp [shutdown, poolEnd]
  · simp [shutdown, poolEnd]

/-- Claim C9: when MYSQL_SOCKET and a complete MYSQL_HOST/MYSQL_PORT pair
are all supplied, the pool configuration carries only the socket path; the
host and port fields are left unset, so exactly one addressing mode is
present. -/
theorem C9_socket_takes_precedence (e : Env)
    (hs : truthy e.MYSQL_SOCKET = true)
    (_hh : truthy e.MYSQL_HOST = true) (_hp : truthy e.MYSQL_PORT = true) :
    (buildConfig e).socketPath = e.MYSQL_SOCKET ∧
    (buildConfig e).socketPath.isSome = true ∧
    (buildConfig e).host = none ∧
    (buildConfig e).port = none := by
  cases hsv : e.MYSQL_SOCKET with
  | none => rw [hsv] at hs; exact absurd hs (by simp [truthy])
  | some s =>
    rw [hsv] at hs
    have hne : ¬(s = "") := by simpa [truthy] using hs
    simp [buildConfig, truthy, hsv, hne]

/-- Witness for C9 at an environment supplying both addressing modes. -/
theorem C9_socket_takes_precedence_witness :
    (buildConfig { MYSQL_HOST := some "localhost", MYSQL_PORT := some "8889",
                   MYSQL_USER := some "u", MYSQL_PASS := some "p",
                   MYSQL_DB := some "d", MYSQL_SOCKET := some "/tmp/mysql.sock",
                   MYSQL_POOL_LIMIT := none }).socketPath = some "/tmp/mysql.sock" ∧
    (buildConfig { MYSQL_HOST := some "localhost", MYSQL_PORT := some "8889",
                   MYSQL_USER := some "u", MYSQL_PASS := some "p",
                   MYSQL_DB := some "d", MYSQL_SOCKET := some "/tmp/mysql.sock",
                   MYSQL_POOL_LIMIT := none }).socketPath.isSome = true ∧
    (buildConfig { MYSQL_HOST := some "localhost", MYSQL_PORT := some "8889",
                   MYSQL_USER := some "u", MYSQL_PASS := some "p",
                   MYSQL_DB := some "d", MYSQL_SOCKET := some "/tmp/mysql.sock",
                   MYSQL_POOL_LIMIT := none }).host = none ∧
    (buildConfig { MYSQL_HOST := some "localhost", MYSQL_PORT := some "8889",
                   MYSQL_USER := some "u", MYSQL_PASS := some "p",
                   MYSQL_DB := some "d", MYSQL_SOCKET := some "/tmp/mysql.sock",
                   MYSQL_POOL_LIMIT := none }).port = none :=
  C9_socket_takes_precedence _ rfl rfl rfl

/-- Claim C10: the ReadResource handler ignores the database (authority)
component of the URI; the catalog query is filtered by the configured
database, so two URIs with different authorities but the same "schema"
last segment and the same table segment return the same text payload (the
responses differ only in the echoed request URI, which `responseText`
strips). -/
theorem C10_authority_ignored (db : String) (cat : Catalog)
    (uri1 uri2 : String) (u1 u2 : ParsedUrl) (t : String)
    (h1 : parseUrl uri1 = some u1) (h2 : parseUrl uri2 = some u2)
    (_hauth : u1.authority ≠ u2.authority)
    (hlast1 : (jsSplit u1.pathname '/').getLast? = some "schema")
    (hlast2 : (jsSplit u2.pathname '/').getLast? = some "schema")
    (htab1 : ((jsSplit u1.pathname '/').dropLast).getLast? = some t)
    (htab2 : ((jsSplit u2.pathname '/').dropLast).getLast? = some t) :
    responseText (readResource db cat uri1) =
      responseText (readResource db cat uri2) := by
  simp [readResource, responseText, h1, h2, hlast1, hlast2, htab1, htab2]

/-- Witness for C10 at two URIs naming different databases but the same
table. -/
theorem C10_authority_ignored_witness :
    responseText (readResource "mydb" [] "mysql://db1/orders/schema") =
      responseText (readResource "mydb" [] "mysql://db2/orders/schema") :=
  C10_authority_ignored "mydb" [] "mysql://db1/orders/schema"
    "mysql://db2/orders/schema"
    { scheme := "mysql", authority := "db1", pathname := "/orders/schema" }
    { scheme := "mysql", authority := "db2", pathname := "/orders/schema" }
    "orders" rfl rfl (by decide) rfl rfl rfl rfl

end MampMysql
